import Mathlib

/-!
Verification of the Poiesis TES task-engine against its natural-language
specification.  The Python sources under `src/poiesis` are shallowly embedded:
pure helpers become Lean functions, stateful flows become explicit state
passing, exceptions become `Except`/`Option` values, and the pub/sub broker is
modelled as the list of messages published on the task's channel.  String
handling mirrors Python semantics (`str.split`, `str.rfind`, slicing) via
executable functions over `List Char`.
-/

namespace Poiesis

/-! ## Python-style string primitives

Python `str.split(sep)` for a single-character separator: splits on every
occurrence, keeping empty fields, and returns at least one field. -/

def splitChar (sep : Char) : List Char → List (List Char)
  | [] => [[]]
  | c :: rest =>
    if c = sep then [] :: splitChar sep rest
    else
      match splitChar sep rest with
      | [] => [[c]]
      | g :: gs => (c :: g) :: gs

/-- Python `str.split("te-")`: splits on every occurrence of the
three-character separator `te-`, keeping empty fields. -/
def splitTE : List Char → List (List Char)
  | 't' :: 'e' :: '-' :: rest => [] :: splitTE rest
  | c :: rest =>
    match splitTE rest with
    | [] => [[c]]
    | g :: gs => (c :: g) :: gs
  | [] => [[]]

/-- Python `"sep".join(groups)` for a single-character separator. -/
def joinChar (sep : Char) : List (List Char) → List Char
  | [] => []
  | [g] => g
  | g :: gs => g ++ sep :: joinChar sep gs

/-- Python `int(s)` restricted to plain decimal numerals (the executor-name
indices produced by the engine are decimal); any other string raises
`ValueError`, modelled as `none`. -/
def pyToNat (cs : List Char) : Option Nat :=
  if cs ≠ [] ∧ cs.all Char.isDigit then
    some (cs.foldl (fun acc c => 10 * acc + (c.toNat - 48)) 0)
  else none

/-- Python `s.lstrip("/")`: drop every leading slash. -/
def lstripSlashes (cs : List Char) : List Char := cs.dropWhile (· = '/')

end Poiesis

namespace Poiesis

/-! ## Broker messages (`core/ports/message_broker.py`)

`Message` is a dataclass whose `status` field has `default_factory`
`MessageStatus.SUCCESS`; the timestamp is irrelevant to the claims. -/

inductive MessageStatus
  | SUCCESS
  | ERROR
deriving DecidableEq, Repr

structure Message where
  message : String
  /-- defaulted by `field(default_factory=lambda: MessageStatus.SUCCESS)` -/
  status : MessageStatus := MessageStatus.SUCCESS
deriving DecidableEq, Repr

/-! ## Tif / Filer (`core/services/filer/tif.py`, `filer.py`)

`Tif.file` iterates over the inputs; a download is abstracted by its result
(`none` = success, `some e` = the raised exception's text).  On the first
failure `file` publishes `Message(f"TIF failed: {e}")` — note the *defaulted*
`SUCCESS` status — and re-raises.  `Filer.execute` catches the exception,
publishes `Message(status=ERROR, message=f"Filer failed: {e}")` and exits 1;
otherwise it publishes `Message("Filer completed.")` and the process exits 0.
The model returns the list of messages published on the task's channel (in
publication order) together with the raised exception / exit code. -/

def tifFile : List (Option String) → List Message × Option String
  | [] => ([], none)
  | none :: rest => tifFile rest
  | some e :: _ => ([{ message := "TIF failed: " ++ e }], some e)

def filerExecute (downloads : List (Option String)) : List Message × Nat :=
  match tifFile downloads with
  | (msgs, some e) =>
    (msgs ++ [{ message := "Filer failed: " ++ e, status := MessageStatus.ERROR }], 1)
  | (msgs, none) => (msgs ++ [{ message := "Filer completed." }], 0)

end Poiesis

namespace Poiesis

/-- C1: the spec claims that on an input-staging failure Tif publishes
`{ERROR, "TIF failed: <reason>"}` as the (first) message on the task's
channel, and on success `{SUCCESS, "Filer completed"}`.  Evaluating the
embedded code at a task with one failing input (reason "boom") shows that the
first message published after the failure is `{SUCCESS, "TIF failed: boom"}`
— `Message(f"TIF failed: {e}")` takes the defaulted `SUCCESS` status — and the
ERROR-status message that follows carries the text "Filer failed: boom"; on
success the published text is "Filer completed." (with a trailing period).
So Torc, which consumes exactly one message, observes a SUCCESS status even
when staging failed.  The exit codes (non-zero on failure, zero on success)
are as claimed. -/
theorem c1_filer_publishes_success_status_on_failure :
    filerExecute [some "boom"] =
      ([{ message := "TIF failed: boom", status := MessageStatus.SUCCESS },
        { message := "Filer failed: boom", status := MessageStatus.ERROR }], 1)
    ∧ (filerExecute [some "boom"]).1.head?.map Message.status =
        some MessageStatus.SUCCESS
    ∧ filerExecute [none] =
        ([{ message := "Filer completed.", status := MessageStatus.SUCCESS }], 0) := by
  refine ⟨rfl, rfl, rfl⟩

end Poiesis

namespace Poiesis

/-! ## Task states (`api/tes/models.py`, generated TES v1.1.0 enum)

The generated TES model module is not part of the engine sources; the enum
values are those of the GA4GH TES specification as listed in the data model. -/

inductive TesState
  | UNKNOWN
  | QUEUED
  | INITIALIZING
  | RUNNING
  | PAUSED
  | COMPLETE
  | EXECUTOR_ERROR
  | SYSTEM_ERROR
  | CANCELED
  | PREEMPTED
  | CANCELING
deriving DecidableEq, Repr

def TesState.isTerminal : TesState → Bool
  | .COMPLETE | .EXECUTOR_ERROR | .SYSTEM_ERROR | .CANCELED => true
  | _ => false

/-! ## Torc state writes (`core/services/torc/torc.py`, `repository/mongo.py`)

`MongoDBClient.update_task_state` writes the new state only when it differs
from the stored one (mongo.py lines 105-120); it has no terminal-state guard.
The model threads the stored state together with the list of state values
written to the task document. -/

def updateTaskState (st : TesState × List TesState) (s : TesState) :
    TesState × List TesState :=
  if st.1 = s then st else (s, st.2 ++ [s])

/-- Abstract outcome of one Torc attempt (`Torc.execute`, torc.py lines
79-131): either PVC creation fails (its handler writes SYSTEM_ERROR and
re-raises, torc.py 190-195), or one of the three stage executions fails (each
stage handler writes SYSTEM_ERROR and re-raises, torc.py 222-227 / 246-252 /
285-290), or the whole attempt succeeds (RUNNING is written after the PVC is
created, and COMPLETE at the end). -/
inductive TorcAttemptOutcome
  | pvcFail
  | tifFail
  | texamFail
  | tofFail
  | ok
deriving DecidableEq, Repr

instance : Fintype TorcAttemptOutcome where
  elems := {TorcAttemptOutcome.pvcFail, TorcAttemptOutcome.tifFail,
    TorcAttemptOutcome.texamFail, TorcAttemptOutcome.tofFail, TorcAttemptOutcome.ok}
  complete := by intro x; cases x <;> decide

/-- State writes performed by a single Torc attempt.  The PVC is created
before RUNNING is written (torc.py 84-88), so a PVC failure writes
SYSTEM_ERROR without a preceding RUNNING; a stage failure writes RUNNING then
SYSTEM_ERROR; a successful attempt writes RUNNING then COMPLETE. -/
def torcAttempt (st : TesState × List TesState) :
    TorcAttemptOutcome → TesState × List TesState
  | .pvcFail => updateTaskState st TesState.SYSTEM_ERROR
  | .tifFail => updateTaskState (updateTaskState st TesState.RUNNING) TesState.SYSTEM_ERROR
  | .texamFail => updateTaskState (updateTaskState st TesState.RUNNING) TesState.SYSTEM_ERROR
  | .tofFail => updateTaskState (updateTaskState st TesState.RUNNING) TesState.SYSTEM_ERROR
  | .ok => updateTaskState (updateTaskState st TesState.RUNNING) TesState.COMPLETE

/-- The retry loop of `Torc.execute`: it breaks after a successful attempt
and otherwise retries until the attempt list (max_retries = 3) is
exhausted, re-raising after the last failure. -/
def torcExecuteGo : List TorcAttemptOutcome → TesState × List TesState →
    TesState × List TesState
  | [], st => st
  | oc :: rest, st =>
    match oc with
    | .ok => torcAttempt st .ok
    | _ => torcExecuteGo rest (torcAttempt st oc)

/-- The sequence of state values written to the task document for a task
whose document starts in INITIALIZING (set by `CreateTaskController`) and is
driven by three Torc attempts with the given outcomes. -/
def torcTrace (a b c : TorcAttemptOutcome) : List TesState :=
  (torcExecuteGo [a, b, c] (TesState.INITIALIZING, [])).2

/-- One step of the state machine as the claim states it:
INITIALIZING → QUEUED → RUNNING → {COMPLETE, EXECUTOR_ERROR, SYSTEM_ERROR,
CANCELED}, CANCELING from any non-terminal state, CANCELING → CANCELED, and
no transition out of a terminal state. -/
def claimStep (a b : TesState) : Bool :=
  match a, b with
  | .INITIALIZING, .QUEUED => true
  | .QUEUED, .RUNNING => true
  | .RUNNING, .COMPLETE => true
  | .RUNNING, .EXECUTOR_ERROR => true
  | .RUNNING, .SYSTEM_ERROR => true
  | .RUNNING, .CANCELED => true
  | .CANCELING, .CANCELED => true
  | a, .CANCELING => !a.isTerminal
  | _, _ => false

/-- Consecutive-pair validity of an observed state sequence. -/
def chainOk (step : TesState → TesState → Bool) : List TesState → Bool
  | a :: b :: rest => step a b && chainOk step (b :: rest)
  | _ => true

/-- The state-write relation the code actually realises (torc.py): Torc
writes RUNNING directly from INITIALIZING (QUEUED is never written by the
engine), SYSTEM_ERROR either from INITIALIZING (PVC-creation failure) or from
RUNNING (stage failure), COMPLETE from RUNNING, and — on a retry attempt
after a failure — RUNNING again from SYSTEM_ERROR. -/
def torcStep (a b : TesState) : Bool :=
  match a, b with
  | .INITIALIZING, .RUNNING => true
  | .INITIALIZING, .SYSTEM_ERROR => true
  | .RUNNING, .COMPLETE => true
  | .RUNNING, .SYSTEM_ERROR => true
  | .SYSTEM_ERROR, .RUNNING => true
  | _, _ => false

end Poiesis

namespace Poiesis

/-- C2 counterexample: a task whose first attempt fails in the Tif stage and
whose second attempt succeeds.  The states written are RUNNING, SYSTEM_ERROR,
RUNNING, COMPLETE: the write sequence is not a prefix of a valid path of the
claimed state machine, and the terminal state SYSTEM_ERROR is followed by a
RUNNING write from the retry attempt — terminal states are not absorbing. -/
theorem c2_terminal_not_absorbing_counterexample :
    torcTrace .tifFail .ok .ok =
      [TesState.RUNNING, TesState.SYSTEM_ERROR, TesState.RUNNING, TesState.COMPLETE]
    ∧ chainOk claimStep (TesState.INITIALIZING :: torcTrace .tifFail .ok .ok) = false
    ∧ (torcTrace .tifFail .ok .ok).get? 1 = some TesState.SYSTEM_ERROR
    ∧ TesState.SYSTEM_ERROR.isTerminal = true
    ∧ (torcTrace .tifFail .ok .ok).get? 2 = some TesState.RUNNING := by
  decide

/-- C2 amended: for every combination of outcomes of the three Torc attempts,
the sequence of states written to the task document (starting from the
INITIALIZING state set at submission) follows INITIALIZING → RUNNING →
{COMPLETE, SYSTEM_ERROR}, with SYSTEM_ERROR written directly from
INITIALIZING when PVC creation fails and — because terminal states are not
guarded — RUNNING written again from SYSTEM_ERROR on each retry attempt;
QUEUED is never written. -/
theorem c2_amended_trace_shape :
    ∀ a b c : TorcAttemptOutcome,
      chainOk torcStep (TesState.INITIALIZING :: torcTrace a b c) = true := by
  decide

end Poiesis

namespace Poiesis

/-! ## list_tasks pagination (`repository/mongo.py` lines 375-418)

A stored task document is abstracted to its Mongo `_id` (a `Nat`, strictly
increasing in insertion order) plus an opaque payload tag.  The filter query
is a decidable predicate on documents.  `listTasks` mirrors the source: apply
the query, add `_id > token` when a page token is present, sort ascending by
`_id`, fetch `page_size + 1` documents, return the first `page_size` as the
page and — when an extra document was fetched — its `_id` (that of the first
document *not* returned) as the next-page token. -/

structure TaskDoc where
  oid : Nat
  payload : Nat := 0
deriving DecidableEq, Repr

/-- Insertion sort by ascending `_id`, mirroring `.sort("_id", 1)`. -/
def insertByOid (d : TaskDoc) : List TaskDoc → List TaskDoc
  | [] => [d]
  | e :: rest => if d.oid ≤ e.oid then d :: e :: rest else e :: insertByOid d rest

def sortByOid : List TaskDoc → List TaskDoc
  | [] => []
  | d :: rest => insertByOid d (sortByOid rest)

def listTasks (db : List TaskDoc) (query : TaskDoc → Bool) (pageSize : Option Nat)
    (nextPageToken : Option Nat) : List TaskDoc × Option Nat :=
  let matched := db.filter fun d =>
    query d && (match nextPageToken with
      | some t => decide (t < d.oid)
      | none => true)
  let docs :=
    match pageSize with
    | some ps => (sortByOid matched).take (ps + 1)
    | none => sortByOid matched
  let tasks :=
    match pageSize with
    | some ps => docs.take ps
    | none => docs
  let nextToken :=
    match pageSize with
    | some ps =>
      if ps < docs.length then (docs.get? ps).map TaskDoc.oid else none
    | none => none
  (tasks, nextToken)

/-- Driver for the claim's iteration: start with no token and repeatedly call
`list_tasks`, following the returned `nextToken` until none is returned,
collecting the pages.  `fuel` bounds the iteration so the function is total;
any fuel at least the database size suffices. -/
def listTasksDrain (db : List TaskDoc) (query : TaskDoc → Bool) (ps : Nat) :
    Option Nat → Nat → List TaskDoc
  | _, 0 => []
  | token, fuel + 1 =>
    match listTasks db query (some ps) token with
    | (tasks, none) => tasks
    | (tasks, some t) => tasks ++ listTasksDrain db query ps (some t) fuel

end Poiesis

namespace Poiesis

/-- C3: with three stored tasks (insertion-order ids 1, 2, 3), the trivial
filter and page size 2, the first page returns tasks 1 and 2 with next token
3 — the `_id` of the first task of the *next* page — and the second call,
which filters with the strict `$gt` on that token, returns nothing: task 3 is
never yielded.  So the repeated-pagination union is [1, 2], omitting a
matching task, contradicting the claim that every matching task is yielded
exactly once. -/
theorem c3_pagination_skips_page_boundary_task :
    listTasks [⟨1, 0⟩, ⟨2, 0⟩, ⟨3, 0⟩] (fun _ => true) (some 2) none =
      ([⟨1, 0⟩, ⟨2, 0⟩], some 3)
    ∧ listTasks [⟨1, 0⟩, ⟨2, 0⟩, ⟨3, 0⟩] (fun _ => true) (some 2) (some 3) =
      ([], none)
    ∧ listTasksDrain [⟨1, 0⟩, ⟨2, 0⟩, ⟨3, 0⟩] (fun _ => true) 2 none 9 =
      [⟨1, 0⟩, ⟨2, 0⟩]
    ∧ ¬ ((⟨3, 0⟩ : TaskDoc) ∈ listTasksDrain [⟨1, 0⟩, ⟨2, 0⟩, ⟨3, 0⟩]
        (fun _ => true) 2 none 9) := by
  refine ⟨rfl, rfl, rfl, by decide⟩

end Poiesis

namespace Poiesis

/-! ## Texam executor monitoring (`core/services/texam/texam.py` 487-575)

`Texam.monitor_executor_job` watches the executor *Job* via
`watch_jobs(metadata.name=<executorName>, timeout_seconds=timeout)`.  For
each event it inspects `job.status.conditions` in order: a `Complete=True`
condition ends the watch successfully, a `Failed=True` condition records the
executor FAILED, and if the stream ends without a terminal condition the
executor is recorded FAILED with the monitoring-timeout message.  Each
watched snapshot also carries the cluster-visible state of the job's pod
(phase and container `waiting.reason`); the source never reads it — there is
no pod-pending inspection in `texam.py` — which is exactly what claim C4 is
about. -/

inductive JobConditionType
  | Complete
  | Failed
deriving DecidableEq, Repr

structure JobCondition where
  ctype : JobConditionType
  statusTrue : Bool
deriving DecidableEq, Repr

structure WatchedJobEvent where
  conditions : List JobCondition
  /-- The container `waiting.reason` of the job's pod at the time of the
  event (e.g. "ImagePullBackOff" while the pod is Pending); visible to the
  process through the platform API but never consulted by
  `monitor_executor_job`. -/
  podContainerWaitingReason : Option String := none
deriving DecidableEq, Repr

/-- The nested condition loop of `monitor_executor_job`: `some true` when a
`Complete=True` condition is found first, `some false` for `Failed=True`,
`none` when no terminal condition is present (including the
`job.status.conditions` falsy case). -/
def scanConditions : List JobCondition → Option Bool
  | [] => none
  | c :: rest =>
    if c.ctype = JobConditionType.Complete ∧ c.statusTrue then some true
    else if c.ctype = JobConditionType.Failed ∧ c.statusTrue then some false
    else scanConditions rest

/-- Terminal disposition recorded for the executor by the monitor: the
`update_executor_log` call it issues (`SUCCEEDED`, or `FAILED` with the given
stderr). -/
inductive MonitorOutcome
  | succeeded
  | failedCondition
  | timedOut (stderr : String)
deriving DecidableEq, Repr

def monitorExecutorJob (timeout : Nat) : List WatchedJobEvent → MonitorOutcome
  | [] =>
    MonitorOutcome.timedOut
      ("Job monitoring timed out after " ++ toString timeout ++ " seconds.")
  | e :: rest =>
    match scanConditions e.conditions with
    | some true => MonitorOutcome.succeeded
    | some false => MonitorOutcome.failedCondition
    | none => monitorExecutorJob timeout rest

/-- An event carries a terminal job condition. -/
def WatchedJobEvent.hasTerminalCondition (e : WatchedJobEvent) : Bool :=
  (scanConditions e.conditions).isSome

end Poiesis

namespace Poiesis

/-- C4 counterexample: an executor whose pod sits in Pending with container
waiting reason "ImagePullBackOff" produces watch events without any terminal
job condition.  The monitor does not inspect the waiting reason and does not
synthesize a FAILED terminal event; the watch runs to its timeout and the
executor is recorded FAILED with the monitoring-timeout stderr — i.e. the
unpullable image surfaces precisely as a MonitorTimeout, contradicting the
claim. -/
theorem c4_pending_image_pull_ends_in_timeout :
    monitorExecutorJob 600
        [⟨[], some "ImagePullBackOff"⟩, ⟨[], some "ImagePullBackOff"⟩,
          ⟨[], some "ImagePullBackOff"⟩] =
      MonitorOutcome.timedOut "Job monitoring timed out after 600 seconds."
    ∧ monitorExecutorJob 600
        [⟨[], some "ImagePullBackOff"⟩, ⟨[], some "ImagePullBackOff"⟩,
          ⟨[], some "ImagePullBackOff"⟩] ≠ MonitorOutcome.failedCondition := by
  decide

/-- C4 amended: `monitor_executor_job` inspects only the job's
`status.conditions`; it performs no pod-Pending `waiting.reason` inspection.
For every watch stream in which no terminal job condition arrives before the
watch ends — as with an unpullable image, whatever critical waiting reason
the pod shows — the executor is recorded FAILED with stderr
"Job monitoring timed out after t seconds." for the configured timeout t. -/
theorem c4_amended_no_terminal_condition_is_timeout (timeout : Nat)
    (events : List WatchedJobEvent)
    (h : ∀ e ∈ events, e.hasTerminalCondition = false) :
    monitorExecutorJob timeout events =
      MonitorOutcome.timedOut
        ("Job monitoring timed out after " ++ toString timeout ++ " seconds.") := by
  induction events with
  | nil => rfl
  | cons e rest ih =>
    have he : e.hasTerminalCondition = false := h e (by simp)
    have hrest : ∀ x ∈ rest, x.hasTerminalCondition = false := by
      intro x hx
      exact h x (by simp [hx])
    unfold monitorExecutorJob
    unfold WatchedJobEvent.hasTerminalCondition at he
    cases hs : scanConditions e.conditions with
    | none => simpa [hs] using ih hrest
    | some b => simp [hs] at he

/-- Witness for `c4_amended_no_terminal_condition_is_timeout` at a concrete
Pending/ImagePullBackOff stream. -/
theorem c4_amended_witness :
    monitorExecutorJob 600
        [⟨[], some "ImagePullBackOff"⟩, ⟨[⟨JobConditionType.Complete, false⟩], some "ErrImagePull"⟩] =
      MonitorOutcome.timedOut
        ("Job monitoring timed out after " ++ toString 600 ++ " seconds.") :=
  c4_amended_no_terminal_condition_is_timeout 600
    [⟨[], some "ImagePullBackOff"⟩, ⟨[⟨JobConditionType.Complete, false⟩], some "ErrImagePull"⟩]
    (by decide)

end Poiesis

namespace Poiesis

/-! ## Cancel controller (`api/controllers/cancel_task.py` 111-141,
`repository/mongo.py` 53-64, `api/exceptions.py`)

`MongoDBClient.get_task` raises `DBException` (status 500, error code
`db_error`) when no document matches — not `NotFoundException`.
`CancelTaskController.execute` then checks ownership (`NotFoundException`),
then the state precondition (`BadRequestException`), writes CANCELING, and
schedules the resource cleanup with `asyncio.create_task` so the response
returns before any deletion; CANCELED is only written later by the
asynchronous cleanup. -/

structure TaskRecord where
  task_id : String
  user_id : String
  state : TesState
deriving DecidableEq, Repr

inductive ApiError
  | dbError (msg : String)
  | notFound (msg : String)
  | badRequest (msg : String)
deriving DecidableEq, Repr

def TesState.value : TesState → String
  | .UNKNOWN => "UNKNOWN"
  | .QUEUED => "QUEUED"
  | .INITIALIZING => "INITIALIZING"
  | .RUNNING => "RUNNING"
  | .PAUSED => "PAUSED"
  | .COMPLETE => "COMPLETE"
  | .EXECUTOR_ERROR => "EXECUTOR_ERROR"
  | .SYSTEM_ERROR => "SYSTEM_ERROR"
  | .CANCELED => "CANCELED"
  | .PREEMPTED => "PREEMPTED"
  | .CANCELING => "CANCELING"

def findTask (db : List TaskRecord) (tid : String) : Option TaskRecord :=
  db.find? fun t => t.task_id = tid

/-- `update_task_state` on the document store: set the state of the matching
document (the no-op-if-equal refinement does not change the resulting
document). -/
def setTaskState (db : List TaskRecord) (tid : String) (s : TesState) :
    List TaskRecord :=
  db.map fun t => if t.task_id = tid then { t with state := s } else t

structure CancelOutcome where
  /-- the HTTP-level outcome: `ok` models the immediate `TesCancelTaskResponse` -/
  response : Except ApiError Unit
  /-- the task collection at the moment the response is returned -/
  db : List TaskRecord
  /-- whether `_clean_task_resources_and_set_final_state` was scheduled
  (it runs asynchronously; the response does not wait for it) -/
  cleanupScheduled : Bool
deriving Repr

def cancelExecute (db : List TaskRecord) (taskId userId : String) : CancelOutcome :=
  match findTask db taskId with
  | none =>
    { response := Except.error (ApiError.dbError
        ("Task with ID " ++ taskId ++ " not found")),
      db := db, cleanupScheduled := false }
  | some task =>
    if task.user_id ≠ userId then
      { response := Except.error (ApiError.notFound
          ("Task " ++ taskId ++ " not found for user")),
        db := db, cleanupScheduled := false }
    else if task.state = TesState.COMPLETE ∨ task.state = TesState.CANCELED
        ∨ task.state = TesState.CANCELING then
      { response := Except.error (ApiError.badRequest
          ("Task " ++ taskId ++ " is already in a terminal state: "
            ++ task.state.value)),
        db := db, cleanupScheduled := false }
    else
      { response := Except.ok (),
        db := setTaskState db taskId TesState.CANCELING,
        cleanupScheduled := true }

def isNotFoundError : Except ApiError Unit → Bool
  | Except.error (ApiError.notFound _) => true
  | _ => false

end Poiesis

namespace Poiesis

/-- C5 counterexample: cancelling a task id that is not in the store raises
`DBException` ("Task with ID t1 not found", a 500 db_error), not the
NotFound error the claim requires — `get_task` raises `DBException` and
`CancelTaskController.execute` does not translate it. -/
theorem c5_missing_task_is_db_error_not_not_found :
    (cancelExecute [] "t1" "u1").response =
      Except.error (ApiError.dbError "Task with ID t1 not found")
    ∧ isNotFoundError (cancelExecute [] "t1" "u1").response = false := by
  refine ⟨rfl, rfl⟩

/-- C5 amended: cancelling a missing task fails with `DBException` (not
NotFound); a task owned by another user fails with NotFound (not Forbidden);
a task in COMPLETE, CANCELED or CANCELING fails with BadRequest; in every
failing case the task collection is unchanged and no cleanup is scheduled.
Otherwise the state is set to CANCELING — not CANCELED — and the response
returns with the deletion merely scheduled, not awaited. -/
theorem c5_amended_cancel_branches (db : List TaskRecord) (task : TaskRecord)
    (taskId userId : String) :
    ((cancelExecute db taskId userId).response.isOk = false →
      (cancelExecute db taskId userId).db = db
      ∧ (cancelExecute db taskId userId).cleanupScheduled = false)
    ∧ (findTask db taskId = none →
      (cancelExecute db taskId userId).response =
        Except.error (ApiError.dbError ("Task with ID " ++ taskId ++ " not found")))
    ∧ (findTask db taskId = some task → task.user_id ≠ userId →
      (cancelExecute db taskId userId).response =
        Except.error (ApiError.notFound ("Task " ++ taskId ++ " not found for user")))
    ∧ (findTask db taskId = some task → task.user_id = userId →
      (task.state = TesState.COMPLETE ∨ task.state = TesState.CANCELED
        ∨ task.state = TesState.CANCELING) →
      (cancelExecute db taskId userId).response =
        Except.error (ApiError.badRequest
          ("Task " ++ taskId ++ " is already in a terminal state: "
            ++ task.state.value)))
    ∧ (findTask db taskId = some task → task.user_id = userId →
      ¬ (task.state = TesState.COMPLETE ∨ task.state = TesState.CANCELED
        ∨ task.state = TesState.CANCELING) →
      (cancelExecute db taskId userId).response = Except.ok ()
      ∧ (cancelExecute db taskId userId).db = setTaskState db taskId TesState.CANCELING
      ∧ (cancelExecute db taskId userId).cleanupScheduled = true) := by
  refine ⟨?_, ?_, ?_, ?_, ?_⟩
  · intro hfail
    unfold cancelExecute at hfail ⊢
    cases hf : findTask db taskId with
    | none => exact ⟨rfl, rfl⟩
    | some t =>
      simp only [hf] at hfail ⊢
      by_cases hu : t.user_id ≠ userId
      · simp [hu]
      · by_cases hs : t.state = TesState.COMPLETE ∨ t.state = TesState.CANCELED
            ∨ t.state = TesState.CANCELING
        · simp [hu, hs]
        · simp [hu, hs, Except.isOk, Except.toBool] at hfail
  · intro hf
    unfold cancelExecute
    simp [hf]
  · intro hf hu
    unfold cancelExecute
    simp [hf, hu]
  · intro hf hu hs
    unfold cancelExecute
    simp [hf, hu, hs]
  · intro hf hu hs
    unfold cancelExecute
    simp [hf, hu, hs]

/-- Witness for `c5_amended_cancel_branches`: a concrete store with one
RUNNING task of user u1; cancelling it succeeds, flips the state to
CANCELING and schedules (without awaiting) the cleanup. -/
theorem c5_amended_cancel_branches_witness :
    (cancelExecute [⟨"t1", "u1", TesState.RUNNING⟩] "t1" "u1").response = Except.ok ()
    ∧ (cancelExecute [⟨"t1", "u1", TesState.RUNNING⟩] "t1" "u1").db =
        setTaskState [⟨"t1", "u1", TesState.RUNNING⟩] "t1" TesState.CANCELING
    ∧ (cancelExecute [⟨"t1", "u1", TesState.RUNNING⟩] "t1" "u1").cleanupScheduled
        = true :=
  (c5_amended_cancel_branches [⟨"t1", "u1", TesState.RUNNING⟩]
      ⟨"t1", "u1", TesState.RUNNING⟩ "t1" "u1").2.2.2.2
    (by decide) (by decide) (by decide)

end Poiesis

namespace Poiesis

/-! ## Texam executor chain and executor logs
(`core/services/texam/texam.py` 73-249, `repository/mongo.py` 266-373)

The current attempt's `logs[-1].logs` array is modelled as a list of
`TesExecutorLog`.  `add_task_executor_log` appends a fresh
`TesExecutorLog(exit_code=0)` (mongo.py 279-285).  `update_executor_log`
writes entry `idx` of that array with `end_time=now`, the given
stdout/stderr and `exit_code = 0 iff phase == SUCCEEDED else 1`
(mongo.py 342-358); every exception inside it — including the `IndexError`
raised when `logs[-1].logs[idx]` does not exist — is caught by the trailing
`except Exception` which only logs (mongo.py 369-373), so the write is
silently dropped.  Executor `idx`'s flow (`Texam.run_single_executor` /
`create_executor_job`): `create_job` is attempted with backoff, and only
*after* it succeeds is `add_task_executor_log` called (texam.py 226-227);
if every attempt fails, `update_executor_log(name_idx, FAILED,
"Failed to create executor job after multiple retries.")` is issued without
any log having been appended (texam.py 242-247).  On a monitored failure or
a creation failure, `Texam.execute` appends a log and issues a FAILED
update for each remaining executor and breaks (texam.py 100-116); the
`if self.failed` branch at the top of the loop (texam.py 80-94) is
unreachable because the chain always breaks right after setting `failed`. -/

inductive PodPhase
  | PENDING
  | RUNNING
  | UNKNOWN
  | FAILED
  | SUCCEEDED
deriving DecidableEq, Repr

structure TesExecutorLog where
  exit_code : Nat := 0
  end_time_set : Bool := false
  stdout : Option String := none
  stderr : Option String := none
deriving DecidableEq, Repr

/-- `TesExecutorLog(exit_code=0)` as appended by `add_task_executor_log`. -/
def freshExecutorLog : TesExecutorLog := {}

def addTaskExecutorLog (logs : List TesExecutorLog) : List TesExecutorLog :=
  logs ++ [freshExecutorLog]

/-- The fields written by a successful `update_executor_log` call. -/
def writtenLog (base : TesExecutorLog) (phase : PodPhase) (stdout stderr : String) :
    TesExecutorLog :=
  { base with
    end_time_set := true
    stdout := some stdout
    stderr := some stderr
    exit_code := if phase = PodPhase.SUCCEEDED then 0 else 1 }

/-- `update_executor_log` for an executor name encoding index `idx` of an
existing task: if `logs[-1].logs[idx]` exists it is overwritten, otherwise
the `IndexError` is swallowed and nothing is written. -/
def updateExecutorLogAt (logs : List TesExecutorLog) (idx : Nat)
    (phase : PodPhase) (stdout stderr : String) : List TesExecutorLog :=
  match logs.get? idx with
  | none => logs
  | some base => logs.set idx (writtenLog base phase stdout stderr)

/-- Abstract fate of one executor, were it launched: its job is created and
the watch reports `Complete`; its job is created and the monitor records a
failure (a `Failed` condition or a watch timeout); or `create_job` fails on
every backoff attempt. -/
inductive ExecOutcome
  | succeeded
  | monitorFailed
  | createFailed
deriving DecidableEq, Repr

def failToStartMsg (i k : Nat) : String :=
  "Executor " ++ toString i ++ " failed to start because executor "
    ++ toString k ++ " failed."

def execSuccessLog : TesExecutorLog :=
  writtenLog freshExecutorLog PodPhase.SUCCEEDED "" ""

def execMonitorFailLog : TesExecutorLog :=
  writtenLog freshExecutorLog PodPhase.FAILED "" ""

def execStartFailLog (i k : Nat) : TesExecutorLog :=
  writtenLog freshExecutorLog PodPhase.FAILED "" (failToStartMsg i k)

/-- The remaining-executors loop of `Texam.execute` (texam.py 101-115):
for each index `i` from `k+1` to the executor count, append a fresh log and
issue `update_executor_log(te-<id>-<i>, FAILED, "", failToStartMsg i k)`. -/
def markRemaining (k : Nat) : Nat → Nat → List TesExecutorLog → List TesExecutorLog
  | _, 0, logs => logs
  | i, cnt + 1, logs =>
    markRemaining k (i + 1) cnt
      (updateExecutorLogAt (addTaskExecutorLog logs) i PodPhase.FAILED ""
        (failToStartMsg i k))

/-- The per-executor loop of `Texam.execute`. -/
def texamGo : Nat → List ExecOutcome → List TesExecutorLog → List TesExecutorLog
  | _, [], logs => logs
  | idx, ExecOutcome.succeeded :: rest, logs =>
    texamGo (idx + 1) rest
      (updateExecutorLogAt (addTaskExecutorLog logs) idx PodPhase.SUCCEEDED "" "")
  | idx, ExecOutcome.monitorFailed :: rest, logs =>
    markRemaining idx (idx + 1) rest.length
      (updateExecutorLogAt (addTaskExecutorLog logs) idx PodPhase.FAILED "" "")
  | idx, ExecOutcome.createFailed :: rest, logs =>
    markRemaining idx (idx + 1) rest.length
      (updateExecutorLogAt logs idx PodPhase.FAILED ""
        "Failed to create executor job after multiple retries.")

/-- The executor-log array of the current attempt after `Texam.execute`
runs a chain whose executors have the given fates. -/
def texamExecute (ocs : List ExecOutcome) : List TesExecutorLog :=
  texamGo 0 ocs []

/-- Logs produced by the remaining-executors loop when the appends and the
updates line up. -/
def failedStartLogs (k : Nat) : Nat → Nat → List TesExecutorLog
  | _, 0 => []
  | i, cnt + 1 => execStartFailLog i k :: failedStartLogs k (i + 1) cnt

lemma get?_append_length {α : Type} (l : List α) (a : α) :
    (l ++ [a]).get? l.length = some a := by
  induction l with
  | nil => rfl
  | cons x xs ih => simp [ih]

lemma set_append_length {α : Type} (l : List α) (a v : α) :
    (l ++ [a]).set l.length v = l ++ [v] := by
  induction l with
  | nil => rfl
  | cons x xs ih => simp [ih]

lemma get?_at_length {α : Type} (l : List α) : l.get? l.length = none := by
  induction l with
  | nil => rfl
  | cons x xs ih => simp [ih]

lemma updateExecutorLogAt_append (logs : List TesExecutorLog)
    (phase : PodPhase) (stdout stderr : String) :
    updateExecutorLogAt (addTaskExecutorLog logs) logs.length phase stdout stderr
      = logs ++ [writtenLog freshExecutorLog phase stdout stderr] := by
  simp [updateExecutorLogAt, addTaskExecutorLog, get?_append_length, set_append_length]

lemma updateExecutorLogAt_at_length (logs : List TesExecutorLog)
    (phase : PodPhase) (stdout stderr : String) :
    updateExecutorLogAt logs logs.length phase stdout stderr = logs := by
  simp [updateExecutorLogAt, get?_at_length]

lemma markRemaining_aligned (k : Nat) :
    ∀ cnt i (logs : List TesExecutorLog), logs.length = i →
      markRemaining k i cnt logs = logs ++ failedStartLogs k i cnt := by
  intro cnt
  induction cnt with
  | zero => intro i logs _; simp [markRemaining, failedStartLogs]
  | succ n ih =>
    intro i logs hlen
    subst hlen
    simp only [markRemaining]
    have hupd : updateExecutorLogAt (addTaskExecutorLog logs) logs.length
        PodPhase.FAILED "" (failToStartMsg logs.length k)
        = logs ++ [execStartFailLog logs.length k] :=
      updateExecutorLogAt_append logs PodPhase.FAILED "" (failToStartMsg logs.length k)
    rw [hupd, ih (logs.length + 1) _ (by simp), List.append_assoc]
    congr 1

lemma markRemaining_misaligned (k : Nat) :
    ∀ cnt i (logs : List TesExecutorLog), logs.length + 1 = i →
      markRemaining k i cnt logs = logs ++ List.replicate cnt freshExecutorLog := by
  intro cnt
  induction cnt with
  | zero => intro i logs _; simp [markRemaining]
  | succ n ih =>
    intro i logs hlen
    subst hlen
    simp only [markRemaining]
    have hadd : (addTaskExecutorLog logs).length = logs.length + 1 := by
      simp [addTaskExecutorLog]
    have hupd : updateExecutorLogAt (addTaskExecutorLog logs) (logs.length + 1)
        PodPhase.FAILED "" (failToStartMsg (logs.length + 1) k)
        = logs ++ [freshExecutorLog] := by
      rw [← hadd, updateExecutorLogAt_at_length]
      rfl
    rw [hupd, ih (logs.length + 2) _ (by simp), List.append_assoc]
    congr 1

lemma texamGo_replicate_succeeded :
    ∀ (k idx : Nat) (ocs : List ExecOutcome) (logs : List TesExecutorLog),
      logs.length = idx →
      texamGo idx (List.replicate k ExecOutcome.succeeded ++ ocs) logs =
        texamGo (idx + k) ocs (logs ++ List.replicate k execSuccessLog) := by
  intro k
  induction k with
  | zero => intro idx ocs logs _; simp
  | succ n ih =>
    intro idx ocs logs hlen
    subst hlen
    rw [List.replicate_succ, List.cons_append]
    simp only [texamGo]
    have hupd : updateExecutorLogAt (addTaskExecutorLog logs) logs.length
        PodPhase.SUCCEEDED "" "" = logs ++ [execSuccessLog] :=
      updateExecutorLogAt_append logs PodPhase.SUCCEEDED "" ""
    rw [hupd, ih (logs.length + 1) ocs _ (by simp)]
    have hidx : logs.length + 1 + n = logs.length + (n + 1) := by omega
    have harr : logs ++ [execSuccessLog] ++ List.replicate n execSuccessLog
        = logs ++ List.replicate (n + 1) execSuccessLog := by
      simp [List.replicate_succ]
    rw [hidx, harr]

end Poiesis

namespace Poiesis

/-- C6 counterexample: a task with two executors whose first executor's job
cannot be created after all retries.  The claim requires
`logs[0].exit_code == 1` with `end_time` set and a second ExecutorLog with
stderr "Executor 1 failed to start because executor 0 failed.".  In fact
`add_task_executor_log` is only called after a successful `create_job`, so
executor 0 has no log when the FAILED update arrives and the update's
`IndexError` is swallowed; the remaining-executor update then targets index 1
of a one-element array and is swallowed too.  The attempt ends with a single
fresh ExecutorLog: `exit_code = 0`, no `end_time`, no stderr, and no entry
for executor 1 at all. -/
theorem c6_create_failure_leaves_fresh_log :
    texamExecute [ExecOutcome.createFailed, ExecOutcome.succeeded] =
      [freshExecutorLog]
    ∧ (texamExecute [ExecOutcome.createFailed, ExecOutcome.succeeded]).length = 1
    ∧ ((texamExecute [ExecOutcome.createFailed, ExecOutcome.succeeded]).get? 0).map
        TesExecutorLog.exit_code = some 0
    ∧ ((texamExecute [ExecOutcome.createFailed, ExecOutcome.succeeded]).get? 0).map
        TesExecutorLog.end_time_set = some false
    ∧ (texamExecute [ExecOutcome.createFailed, ExecOutcome.succeeded]).get? 1
        = none := by
  refine ⟨rfl, rfl, rfl, rfl, rfl⟩

/-- C6 amended: when executor `k`'s job is created but reaches a failed
terminal condition (all executors before it having succeeded), the claim's
log shape holds: one log per executor, `exit_code = 0` for `i < k`,
`exit_code = 1` with `end_time` set at `k`, and for each `i > k` a log with
`exit_code = 1` and stderr "Executor i failed to start because executor k
failed." — and no executor after `k` is launched.  But when executor `k`'s
job cannot be *created* after all retries, no log is ever written for `k`:
the remaining-executor updates each miss the end of the array by one and are
swallowed, so the attempt ends with the `k` success logs followed by
`n - k - 1` untouched fresh logs (`exit_code = 0`, no `end_time`, no
stderr). -/
theorem c6_amended_failure_log_shape (k : Nat) (rest : List ExecOutcome) :
    texamExecute
        (List.replicate k ExecOutcome.succeeded ++ ExecOutcome.monitorFailed :: rest) =
      List.replicate k execSuccessLog
        ++ execMonitorFailLog :: failedStartLogs k (k + 1) rest.length
    ∧ texamExecute
        (List.replicate k ExecOutcome.succeeded ++ ExecOutcome.createFailed :: rest) =
      List.replicate k execSuccessLog
        ++ List.replicate rest.length freshExecutorLog := by
  constructor
  · unfold texamExecute
    rw [texamGo_replicate_succeeded k 0 _ [] rfl]
    simp only [List.nil_append, Nat.zero_add]
    simp only [texamGo]
    have h1 : updateExecutorLogAt (addTaskExecutorLog (List.replicate k execSuccessLog))
        k PodPhase.FAILED "" "" = List.replicate k execSuccessLog ++ [execMonitorFailLog] := by
      have h := updateExecutorLogAt_append (List.replicate k execSuccessLog)
        PodPhase.FAILED "" ""
      simpa using h
    rw [h1, markRemaining_aligned k rest.length (k + 1) _ (by simp)]
    simp
  · unfold texamExecute
    rw [texamGo_replicate_succeeded k 0 _ [] rfl]
    simp only [List.nil_append, Nat.zero_add]
    simp only [texamGo]
    have h2 : updateExecutorLogAt (List.replicate k execSuccessLog) k PodPhase.FAILED ""
        "Failed to create executor job after multiple retries."
        = List.replicate k execSuccessLog := by
      have h := updateExecutorLogAt_at_length (List.replicate k execSuccessLog)
        PodPhase.FAILED "" "Failed to create executor job after multiple retries."
      simpa using h
    rw [h2, markRemaining_misaligned k rest.length (k + 1) _ (by simp)]

end Poiesis

namespace Poiesis

/-! ## Executor-name parsing in `update_executor_log`
(`repository/mongo.py` 306-373)

The repository recovers `(taskId, idx)` from the pod name by
`pod_name.split("te-")[-1]`, splitting the remainder on `-`, taking
`int(parts[-1])` as the index and `"-".join(parts[:5])` as the task id.  The
whole body runs under `try: ... except Exception` whose handler only logs
(mongo.py 369-373): a name whose index is not an integer, a task id that
matches no document, a missing attempt, or an out-of-range index all fail
*silently* — the function returns normally and nothing is written. -/

def parseExecutorName (name : String) : Option (String × Nat) :=
  let rest := (splitTE name.data).getLastD name.data
  let parts := splitChar '-' rest
  match pyToNat (parts.getLastD []) with
  | none => none
  | some idx => some (String.mk (joinChar '-' (parts.take 5)), idx)

/-- A task document restricted to the fields `update_executor_log` touches:
its id and its `logs` array (one entry per attempt, each holding the
attempt's `logs: ExecutorLog[]`). -/
structure TaskLogs where
  task_id : String
  attempts : List (List TesExecutorLog)
deriving DecidableEq, Repr

def updateExecutorLogDB (db : List TaskLogs) (podName : String)
    (phase : PodPhase) (stdout stderr : String) : List TaskLogs :=
  match parseExecutorName podName with
  | none => db
  | some (tid, idx) =>
    match db.find? fun t => t.task_id = tid with
    | none => db
    | some t =>
      match t.attempts.getLast? with
      | none => db
      | some attempt =>
        match attempt.get? idx with
        | none => db
        | some base =>
          db.map fun u =>
            if u.task_id = tid then
              { u with attempts := u.attempts.dropLast
                  ++ [attempt.set idx (writtenLog base phase stdout stderr)] }
            else u

/-- A well-formed v4-UUID-shaped task id and the executor name `te-<id>-1`
derived from it, used to exercise the write path. -/
def demoUuid : String := "aaaaaaaa-bbbb-cccc-dddd-eeeeeeeeeeee"

def demoExecName : String := "te-aaaaaaaa-bbbb-cccc-dddd-eeeeeeeeeeee-1"

end Poiesis

namespace Poiesis

/-- C7 counterexample: `update_executor_log` does not reject malformed
executor names.  Called with the name "bogus-name" (no integer index) or
"te-zzzz-7" (not of the form `te-<uuid>-<int>`; its recovered task id
"zzzz-7" matches no document) against a store holding one task, the internal
exception is caught and only logged: the call returns normally with the
store unchanged, silently accepting the bad name instead of failing. -/
theorem c7_malformed_name_silently_ignored :
    updateExecutorLogDB [⟨demoUuid, [[freshExecutorLog]]⟩] "bogus-name"
        PodPhase.SUCCEEDED "" "" = [⟨demoUuid, [[freshExecutorLog]]⟩]
    ∧ updateExecutorLogDB [⟨demoUuid, [[freshExecutorLog]]⟩] "te-zzzz-7"
        PodPhase.SUCCEEDED "" "" = [⟨demoUuid, [[freshExecutorLog]]⟩] := by
  refine ⟨rfl, rfl⟩

/-- C7 amended: for a well-formed name `te-<taskId>-<idx>` naming a stored
task whose current attempt has an entry at `idx`, the repository writes
`logs[-1].logs[idx]` with `end_time` set and
`exit_code = 0 iff phase == SUCCEEDED else 1`; but a name that fails to
parse is not rejected — the internal error is caught and logged and the call
returns with the store unchanged. -/
theorem c7_write_semantics_and_silent_parse_failure (phase : PodPhase)
    (stdout stderr : String) (db : List TaskLogs) (name : String)
    (e0 e1 : TesExecutorLog) (h : parseExecutorName name = none) :
    updateExecutorLogDB db name phase stdout stderr = db
    ∧ updateExecutorLogDB [⟨demoUuid, [[e0, e1]]⟩] demoExecName phase stdout stderr
        = [⟨demoUuid, [[e0, writtenLog e1 phase stdout stderr]]⟩] := by
  constructor
  · unfold updateExecutorLogDB
    rw [h]
  · rfl

/-- Witness for `c7_write_semantics_and_silent_parse_failure` at the
unparsable name "not-an-executor" and a concrete two-executor attempt. -/
theorem c7_write_semantics_witness :
    updateExecutorLogDB [] "not-an-executor" PodPhase.FAILED "" "" = []
    ∧ updateExecutorLogDB
        [⟨demoUuid, [[freshExecutorLog, freshExecutorLog]]⟩] demoExecName
        PodPhase.FAILED "" "" =
      [⟨demoUuid, [[freshExecutorLog,
        writtenLog freshExecutorLog PodPhase.FAILED "" ""]]⟩] :=
  c7_write_semantics_and_silent_parse_failure PodPhase.FAILED "" "" []
    "not-an-executor" freshExecutorLog freshExecutorLog rfl

end Poiesis

namespace Poiesis

/-! ## Filer strategy dispatch
(`core/services/filer/filer_strategy_factory.py` 33-108)

`create_strategy` computes `urlparse(uri).scheme.lower() if uri else None`:
a `None` or empty *URI* (both falsy) yields scheme `None` and the Content
strategy; otherwise the scheme — possibly the empty string for a plain path —
is looked up in `STRATEGY_MAP`, whose `""` entry is named "content" but maps
to `LocalFilerStrategy`; an unknown scheme raises
`ValueError("Unsupported scheme: ...")`. -/

/-- `urllib.parse.urlparse(u).scheme.lower()`: the prefix before the first
`:` when it starts with a letter and consists of letters, digits, `+`, `-`,
`.`; otherwise the empty string. -/
def takeUntilColon : List Char → Option (List Char)
  | [] => none
  | c :: rest => if c = ':' then some [] else (takeUntilColon rest).map (c :: ·)

def isSchemeChar (c : Char) : Bool :=
  c.isAlpha || c.isDigit || c = '+' || c = '-' || c = '.'

def urlparseScheme (u : String) : String :=
  match takeUntilColon u.data with
  | none => ""
  | some [] => ""
  | some (c :: cs) =>
    if c.isAlpha ∧ (c :: cs).all isSchemeChar then
      String.mk ((c :: cs).map Char.toLower)
    else ""

inductive FilerStrategyKind
  | contentStrategy
  | localStrategy
  | s3Strategy
  | httpStrategy
deriving DecidableEq, Repr

/-- `STRATEGY_MAP` keyed by scheme (filer_strategy_factory.py 33-64): the
`""` entry carries `strategy=LocalFilerStrategy` (its `name` is "content"
but the class instantiated is Local). -/
def strategyMapLookup : String → Option FilerStrategyKind := fun s =>
  if s = "" then some FilerStrategyKind.localStrategy
  else if s = "file" then some FilerStrategyKind.localStrategy
  else if s = "s3" then some FilerStrategyKind.s3Strategy
  else if s = "http" then some FilerStrategyKind.httpStrategy
  else if s = "https" then some FilerStrategyKind.httpStrategy
  else none

def createStrategy (uri : Option String) : Except String FilerStrategyKind :=
  let scheme : Option String :=
    match uri with
    | none => none
    | some u => if u = "" then none else some (urlparseScheme u)
  match scheme with
  | none => Except.ok FilerStrategyKind.contentStrategy
  | some sch =>
    match strategyMapLookup sch with
    | none => Except.error ("Unsupported scheme: " ++ sch)
    | some k => Except.ok k

def strategyOk : Except String FilerStrategyKind → Option FilerStrategyKind
  | Except.ok k => some k
  | Except.error _ => none

end Poiesis

namespace Poiesis

/-- C8 counterexample: the URI "/data/file" has an empty scheme (it is a
plain path), so the claim requires the Content strategy; `create_strategy`
instead selects `LocalFilerStrategy` via the `""` entry of `STRATEGY_MAP`
(the Content strategy is chosen only when the whole URI is absent or the
empty string). -/
theorem c8_empty_scheme_selects_local :
    createStrategy (some "/data/file") = Except.ok FilerStrategyKind.localStrategy
    ∧ strategyOk (createStrategy (some "/data/file"))
        ≠ some FilerStrategyKind.contentStrategy := by
  refine ⟨rfl, by decide⟩

/-- C8 amended: an absent URI (None or the empty string) selects Content; a
non-empty URI with an empty scheme (a plain path) selects Local; `file`
selects Local, `s3` selects S3, `http`/`https` select Http; and every URI
whose scheme is not a key of `STRATEGY_MAP` fails closed with
`ValueError("Unsupported scheme: <scheme>")` rather than defaulting to
Local. -/
theorem c8_dispatch_total_and_fails_closed (u : String) (hne : u ≠ "")
    (h : strategyMapLookup (urlparseScheme u) = none) :
    createStrategy none = Except.ok FilerStrategyKind.contentStrategy
    ∧ createStrategy (some "") = Except.ok FilerStrategyKind.contentStrategy
    ∧ createStrategy (some "/data/f1/file") = Except.ok FilerStrategyKind.localStrategy
    ∧ createStrategy (some "file:///d/f") = Except.ok FilerStrategyKind.localStrategy
    ∧ createStrategy (some "s3://b/k") = Except.ok FilerStrategyKind.s3Strategy
    ∧ createStrategy (some "http://h/p") = Except.ok FilerStrategyKind.httpStrategy
    ∧ createStrategy (some "https://h/p") = Except.ok FilerStrategyKind.httpStrategy
    ∧ createStrategy (some u) = Except.error ("Unsupported scheme: " ++ urlparseScheme u) := by
  refine ⟨rfl, rfl, rfl, rfl, rfl, rfl, rfl, ?_⟩
  simp [createStrategy, hne, h]

/-- Witness for `c8_dispatch_total_and_fails_closed` at the unknown scheme
`ftp`. -/
theorem c8_dispatch_witness :
    createStrategy none = Except.ok FilerStrategyKind.contentStrategy
    ∧ createStrategy (some "") = Except.ok FilerStrategyKind.contentStrategy
    ∧ createStrategy (some "/data/f1/file") = Except.ok FilerStrategyKind.localStrategy
    ∧ createStrategy (some "file:///d/f") = Except.ok FilerStrategyKind.localStrategy
    ∧ createStrategy (some "s3://b/k") = Except.ok FilerStrategyKind.s3Strategy
    ∧ createStrategy (some "http://h/p") = Except.ok FilerStrategyKind.httpStrategy
    ∧ createStrategy (some "https://h/p") = Except.ok FilerStrategyKind.httpStrategy
    ∧ createStrategy (some "ftp://host/x")
        = Except.error ("Unsupported scheme: " ++ urlparseScheme "ftp://host/x") :=
  c8_dispatch_total_and_fails_closed "ftp://host/x" (by decide) rfl

end Poiesis

namespace Poiesis

/-! ## S3 URL parsing and key sanitization
(`core/services/filer/strategy/s3_filer.py` 87-133)

`urlparse` is modelled for the URL shapes the strategy handles
(`scheme://netloc/path`, no query/params/fragment): the netloc is the
segment between `//` and the next `/`, the path is the remainder with its
leading slash. -/

def urlparseNetlocPath (u : String) : String × String :=
  let sch := urlparseScheme u
  if sch = "" then ("", u)
  else
    let rest := u.data.drop (sch.length + 1)
    if rest.take 2 = ['/', '/'] then
      match splitChar '/' (rest.drop 2) with
      | [] => ("", "")
      | netloc :: segs =>
        (String.mk netloc,
          if segs = [] then "" else String.mk ('/' :: joinChar '/' segs))
    else ("", String.mk rest)

/-- The glob metacharacters of `_sanitize_s3_key`'s regex `[\*\?\[\{]`
(the brace is written via its code point). -/
def isGlobChar (c : Char) : Bool :=
  c = '*' || c = '?' || c = '[' || c = Char.ofNat 123

/-- Python `key.rfind("/", 0, stop)`: the greatest index `< stop` holding a
slash, `none` when there is none (Python returns -1). -/
def lastSlashBefore (cs : List Char) (stop : Nat) : Option Nat :=
  ((List.range stop).filter fun i => cs.get? i = some '/').getLast?

/-- `S3FilerStrategy._sanitize_s3_key`: a key without glob metacharacters is
returned unchanged; otherwise the key is cut after the last `/` preceding
the first metacharacter, or emptied when there is no such slash. -/
def sanitizeS3Key (key : String) : String :=
  match key.data.findIdx? isGlobChar with
  | none => key
  | some p =>
    match lastSlashBefore key.data p with
    | none => ""
    | some i => String.mk (key.data.take (i + 1))

structure S3Location where
  s3_host : Option String
  bucket : String
  key : String
deriving DecidableEq, Repr

/-- `S3FilerStrategy._set_host_bucket_key`: reject non-s3 schemes; treat the
netloc as the endpoint host when it contains a `.` or a `:` (then the first
path segment is the bucket and the rest the raw key), otherwise the netloc
is the bucket, the host falls back to the `S3_URL` environment variable
(`s3UrlEnv`), and the stripped path is the raw key; the raw key is passed
through `_sanitize_s3_key`. -/
def setHostBucketKey (s3UrlEnv : Option String) (url : String) :
    Except String S3Location :=
  if urlparseScheme url ≠ "s3" then
    Except.error ("URL must start with s3://, got: " ++ url)
  else
    let netloc := (urlparseNetlocPath url).1
    let path := (urlparseNetlocPath url).2
    let pathParts := (splitChar '/' (lstripSlashes path.data)).map String.mk
    let isHostInNetloc :=
      netloc ≠ "" ∧ (netloc.data.any (· = '.') ∨ netloc.data.any (· = ':'))
    if isHostInNetloc then
      match pathParts with
      | [] => Except.error "Bucket not found in URL path after host."
      | p0 :: rest =>
        if p0 = "" then Except.error "Bucket not found in URL path after host."
        else if p0 = "" then Except.error "Bucket name could not be determined from S3 URL."
        else
          Except.ok
            { s3_host := some netloc, bucket := p0,
              key := sanitizeS3Key (String.mk (joinChar '/' (rest.map String.data))) }
    else
      if netloc = "" then
        Except.error "Bucket name could not be determined from S3 URL."
      else
        Except.ok
          { s3_host := s3UrlEnv, bucket := netloc,
            key := sanitizeS3Key (String.mk (lstripSlashes path.data)) }

end Poiesis

namespace Poiesis

/-- C9: the S3 round-trip equations of the spec hold on the embedded code:
`parse("s3://host:9000/b/k/f")` yields host "host:9000", bucket "b", key
"k/f"; `parse("s3://b/k/f")` yields the `S3_URL` environment value as host,
bucket "b", key "k/f"; `sanitize("res/SRR*.fna")` is "res/" (longest literal
prefix cut at a slash); and `sanitize("res/SRR123.fna")` is unchanged. -/
theorem c9_s3_parse_and_sanitize_equations (env : Option String) :
    setHostBucketKey env "s3://host:9000/b/k/f"
      = Except.ok { s3_host := some "host:9000", bucket := "b", key := "k/f" }
    ∧ setHostBucketKey env "s3://b/k/f"
      = Except.ok { s3_host := env, bucket := "b", key := "k/f" }
    ∧ sanitizeS3Key "res/SRR*.fna" = "res/"
    ∧ sanitizeS3Key "res/SRR123.fna" = "res/SRR123.fna" := by
  refine ⟨rfl, rfl, rfl, rfl⟩

end Poiesis

namespace Poiesis

/-! ## Path splitting for PVC mounting (`core/services/utils.py` 52-65) and
the executor manifest (`core/services/texam/texam.py` 297-314)

`pathlib.PurePosixPath.parts` for the paths the engine handles: the
anchor `/` (for absolute paths) followed by the non-empty path components
(duplicate slashes collapse; `.`-segment normalization is not needed for
these claims). -/

def pathParts (p : String) : List String :=
  let comps := ((splitChar '/' p.data).filter (· ≠ [])).map String.mk
  if p.data.take 1 = ['/'] then "/" :: comps else comps

/-- `split_path_for_mounting`: empty paths and paths with at most two
`Path.parts` components raise `ValueError`; otherwise the result is the
anchor joined with the second component, and the remaining components joined
with `/`. -/
def splitPathForMounting (pathStr : String) : Except String (String × String) :=
  if pathStr = "" then Except.error "Path is empty."
  else
    let parts := pathParts pathStr
    if parts.length ≤ 2 then Except.error "Path needs to be nested at least once."
    else
      let first :=
        if pathStr.data.take 1 = ['/'] then "/" ++ parts.getD 1 ""
        else parts.getD 1 ""
      Except.ok (first, String.mk (joinChar '/' ((parts.drop 2).map String.data)))

/-- The input-volume computation of `Texam._create_executor_job_manifest`
(texam.py 297-314): the first component of every input path, in order; the
`_empty_dir_seen` de-duplication only drops repeats and cannot mask the
`ValueError` raised by `split_path_for_mounting`, which propagates. -/
def texamEmptyDirRoots : List String → Except String (List String)
  | [] => Except.ok []
  | p :: rest =>
    match splitPathForMounting p with
    | Except.error e => Except.error e
    | Except.ok fr =>
      match texamEmptyDirRoots rest with
      | Except.error e => Except.error e
      | Except.ok others => Except.ok (fr.1 :: others)

inductive K8sAction
  | createJob (name : String)
deriving DecidableEq, Repr

/-- `Texam.create_executor_job` (texam.py 200-228): the manifest is
constructed (line 211) before the backoff loop ever calls `create_job`, so a
manifest error propagates with no job-creation action issued; on success the
model records the single `create_job` for `te-<taskId>-<idx>`. -/
def createExecutorJobActions (taskId : String) (idx : Nat)
    (inputPaths : List String) : Except String (List K8sAction) :=
  match texamEmptyDirRoots inputPaths with
  | Except.error e => Except.error e
  | Except.ok _ =>
    Except.ok [K8sAction.createJob ("te-" ++ taskId ++ "-" ++ toString idx)]

/-- `CreateTaskController._create_dummy_task_document` (create_task.py
267-281): the submitted task is stored with state INITIALIZING; no
validation of input paths is performed (the function is total). -/
structure TaskSchemaDoc where
  task_id : String
  user_id : String
  state : TesState
  inputPaths : List String
deriving DecidableEq, Repr

def createDummyTaskDocument (taskId userId : String) (inputPaths : List String) :
    TaskSchemaDoc :=
  { task_id := taskId, user_id := userId, state := TesState.INITIALIZING,
    inputPaths := inputPaths }

end Poiesis

namespace Poiesis

/-- C10: `split_path_for_mounting` raises `ValueError` for every path with
fewer than two components below the root — in particular "/", "/data" and
the empty string — and consequently, for a task declaring the top-level
input path "/file" (which task submission accepts without validation,
storing the document in INITIALIZING), building the executor job manifest in
Texam fails before any executor job is created. -/
theorem c10_shallow_path_rejected_in_manifest (p taskId userId : String)
    (h : (pathParts p).length ≤ 2) :
    splitPathForMounting p = Except.error
      (if p = "" then "Path is empty." else "Path needs to be nested at least once.")
    ∧ splitPathForMounting "/" = Except.error "Path needs to be nested at least once."
    ∧ splitPathForMounting "/data" = Except.error "Path needs to be nested at least once."
    ∧ splitPathForMounting "" = Except.error "Path is empty."
    ∧ (createDummyTaskDocument taskId userId ["/file"]).state = TesState.INITIALIZING
    ∧ createExecutorJobActions taskId 0 ["/file"]
        = Except.error "Path needs to be nested at least once." := by
  refine ⟨?_, rfl, rfl, rfl, rfl, rfl⟩
  by_cases hp : p = ""
  · simp [splitPathForMounting, hp]
  · simp [splitPathForMounting, hp, h]

/-- Witness for `c10_shallow_path_rejected_in_manifest` at the one-component
path "/data". -/
theorem c10_shallow_path_witness :
    splitPathForMounting "/data" = Except.error
      (if "/data" = "" then "Path is empty."
        else "Path needs to be nested at least once.")
    ∧ splitPathForMounting "/" = Except.error "Path needs to be nested at least once."
    ∧ splitPathForMounting "/data" = Except.error "Path needs to be nested at least once."
    ∧ splitPathForMounting "" = Except.error "Path is empty."
    ∧ (createDummyTaskDocument "t1" "u1" ["/file"]).state = TesState.INITIALIZING
    ∧ createExecutorJobActions "t1" 0 ["/file"]
        = Except.error "Path needs to be nested at least once." :=
  c10_shallow_path_rejected_in_manifest "/data" "t1" "u1" (by decide)

end Poiesis
